import Mathlib

/-
Verification of the focusnook timer engine (src/src-tauri/src/timer.rs).

The Rust module keeps a registry of countdown timers behind a mutex and,
per started timer, a spawned tick task that recomputes the remaining time
from an absolute deadline once per tick.  We embed the registry state and
every operation as pure Lean functions.  Machine integers: `i64` values
are modeled as `Int` together with the explicit wrapping casts the source
performs (`as u64` at `start`, `as i64` on `Duration::as_millis()` at each
tick).  `Instant` is modeled as a `Nat` of monotonic milliseconds; the
spawned task is modeled by its per-tick body (`tickBody`) and by running
that body over an arbitrary schedule of tick instants (`runLoop`); the
`oneshot` cancel channel and the `JoinHandle` are modeled by their
presence flags in the record, and cancellation/abort by the schedule
ending.  Emitted Tauri events are collected in lists.
-/

namespace Focusnook

/-- Rust `as u64` cast of an `i64` value (`timer.remaining_ms as u64` in
`start_timer`): two's-complement wrap into `[0, 2^64)`. -/
def u64cast (n : Int) : Nat := (n % (2 ^ 64 : Int)).toNat

/-- Rust `as i64` cast of an unsigned millisecond count
(`Duration::as_millis() as i64` in the tick loop and in `pause_timer`):
truncate to 64 bits and reinterpret as two's complement. -/
def i64castOfNat (n : Nat) : Int :=
  if n % 2 ^ 64 < 2 ^ 63 then ((n % 2 ^ 64 : Nat) : Int)
  else ((n % 2 ^ 64 : Nat) : Int) - 2 ^ 64

/-- The `TimerInstance` struct of `timer.rs`.  `target_at : Option Instant`
is modeled in monotonic milliseconds; `runner : Option JoinHandle<()>` and
`cancel_tx : Option oneshot::Sender<()>` are modeled by presence flags. -/
structure TimerInstance where
  id : String
  name : String
  duration_ms : Int
  remaining_ms : Int
  target_at : Option Nat
  runner : Bool
  cancel_tx : Bool
  running : Bool
  completed : Bool
  created_at : String
deriving DecidableEq

/-- The serializable `Timer` snapshot struct returned to the frontend. -/
structure Timer where
  id : String
  name : String
  duration_ms : Int
  remaining_ms : Int
  running : Bool
  completed : Bool
  created_at : String
deriving DecidableEq

/-- The `timers: HashMap<String, TimerInstance>` map of `MultiTimerInner`. -/
def Registry := String → Option TimerInstance

/-- The empty registry (`MultiTimerInner::default()`). -/
def Registry.empty : Registry := fun _ => none

/-- `HashMap::insert` (also models in-place mutation through `get_mut`). -/
def Registry.insert (st : Registry) (k : String) (v : TimerInstance) : Registry :=
  fun k2 => if k2 = k then some v else st k2

/-- `HashMap::remove`. -/
def Registry.remove (st : Registry) (k : String) : Registry :=
  fun k2 => if k2 = k then none else st k2

/-- Events emitted to the frontend: the `timer:tick` progress payload
(`TimerTickPayload`) and the `timer:done` completion payload
(`TimerDonePayload`). -/
inductive Event where
  | tick (timer_id : String) (remaining_ms : Int) (duration_ms : Int) (running : Bool)
  | done (timer_id : String) (finished_at : String)
deriving DecidableEq

/-- Number of completion (`timer:done`) events in an emission trace. -/
def doneCount (evs : List Event) : Nat :=
  evs.countP fun e => match e with
    | Event.done _ _ => true
    | _ => false

/-- `TimerState::create_timer`.  `created_at` stands for the
`Utc::now().to_rfc3339()` string taken at the call. -/
def create_timer (st : Registry) (id name : String) (duration_ms : Int)
    (created_at : String) : Registry × Except String Timer :=
  if (st id).isSome then
    (st, Except.error "Timer with this ID already exists")
  else
    (st.insert id
       ⟨id, name, duration_ms, duration_ms, none, false, false, false, false, created_at⟩,
     Except.ok ⟨id, name, duration_ms, duration_ms, false, false, created_at⟩)

/-- `TimerState::delete_timer`: removes the record; the taken `cancel_tx`
send and `runner.abort()` act on the removed record only. -/
def delete_timer (st : Registry) (timer_id : String) : Registry × Except String Unit :=
  match st timer_id with
  | some _ => (st.remove timer_id, Except.ok ())
  | none => (st, Except.error "Timer not found")

/-- `TimerState::start_timer` at monotonic instant `now`: cancels and aborts
any previous runner, sets `target_at = now + (remaining_ms as u64)` ms,
`running = true`, `completed = false`, emits an immediate `timer:tick`
payload, then installs a fresh cancel sender and spawned runner. -/
def start_timer (st : Registry) (timer_id : String) (now : Nat) :
    Registry × Except String Unit × List Event :=
  match st timer_id with
  | none => (st, Except.error "Timer not found", [])
  | some t =>
    (st.insert timer_id
       { t with target_at := some (now + u64cast t.remaining_ms),
                running := true, completed := false,
                cancel_tx := true, runner := true },
     Except.ok (),
     [Event.tick timer_id t.remaining_ms t.duration_ms true])

/-- The remaining-time computation of one tick of the spawned loop:
`timer.target_at.map(|t| t.saturating_duration_since(now).as_millis() as i64).unwrap_or(0)`. -/
def tickRemaining (t : TimerInstance) (now : Nat) : Int :=
  match t.target_at with
  | some target => i64castOfNat (target - now)
  | none => 0

/-- One iteration of the spawned tick loop of `start_timer`, at monotonic
instant `now`; `finished_at` stands for the `Utc::now().to_rfc3339()`
string taken if the completion branch runs.  Returns the new registry, the
events emitted during the iteration, and whether the loop `break`s. -/
def tickBody (st : Registry) (id : String) (now : Nat) (finished_at : String) :
    Registry × List Event × Bool :=
  match st id with
  | none => (st, [], true)
  | some t =>
    if tickRemaining t now ≤ 0 then
      match (st.insert id { t with remaining_ms := max (tickRemaining t now) 0 }) id with
      | some t2 =>
        ((st.insert id { t with remaining_ms := max (tickRemaining t now) 0 }).insert id
           { t2 with running := false, completed := true,
                     target_at := none, cancel_tx := false },
         [Event.tick id (max (tickRemaining t now) 0) t.duration_ms t.running,
          Event.done id finished_at], true)
      | none =>
        (st.insert id { t with remaining_ms := max (tickRemaining t now) 0 },
         [Event.tick id (max (tickRemaining t now) 0) t.duration_ms t.running], true)
    else
      (st.insert id { t with remaining_ms := max (tickRemaining t now) 0 },
       [Event.tick id (max (tickRemaining t now) 0) t.duration_ms t.running], false)

/-- The spawned tick loop run over a schedule of tick instants (each with
the wall-clock string that a completion at that instant would record).  An
exhausted schedule models the cancel branch of the `select!` winning (or
`abort`): the loop stops emitting nothing. -/
def runLoop (st : Registry) (id : String) : List (Nat × String) → Registry × List Event
  | [] => (st, [])
  | (now, fin) :: rest =>
    if (tickBody st id now fin).2.2 then
      ((tickBody st id now fin).1, (tickBody st id now fin).2.1)
    else
      ((runLoop (tickBody st id now fin).1 id rest).1,
       (tickBody st id now fin).2.1 ++ (runLoop (tickBody st id now fin).1 id rest).2)

/-- The frozen remaining value written by `pause_timer`:
`target.saturating_duration_since(now).as_millis() as i64` when a deadline
is present (`if let Some(target)`), the stored value otherwise. -/
def pauseRemaining (t : TimerInstance) (now : Nat) : Int :=
  match t.target_at with
  | some target => i64castOfNat (target - now)
  | none => t.remaining_ms

/-- `TimerState::pause_timer` at monotonic instant `now`: no-op result when
not running; otherwise cancels/aborts the runner, freezes `remaining_ms`,
clears `target_at`, stops, and emits the frozen `timer:tick` payload. -/
def pause_timer (st : Registry) (timer_id : String) (now : Nat) :
    Registry × Except String Unit × List Event :=
  match st timer_id with
  | none => (st, Except.error "Timer not found", [])
  | some t =>
    if t.running = false then (st, Except.ok (), [])
    else
      (st.insert timer_id
         { t with remaining_ms := pauseRemaining t now, target_at := none,
                  running := false, cancel_tx := false, runner := false },
       Except.ok (),
       [Event.tick timer_id (pauseRemaining t now) t.duration_ms false])

/-- `TimerState::resume_timer`: no-op when already running, otherwise
delegates to `start_timer`. -/
def resume_timer (st : Registry) (timer_id : String) (now : Nat) :
    Registry × Except String Unit × List Event :=
  match st timer_id with
  | none => (st, Except.error "Timer not found", [])
  | some t =>
    if t.running then (st, Except.ok (), [])
    else start_timer st timer_id now

/-- `TimerState::reset_timer`: cancels/aborts any runner, restores
`remaining_ms = duration_ms`, clears `target_at`, `running`, `completed`,
and emits the restored `timer:tick` payload. -/
def reset_timer (st : Registry) (timer_id : String) :
    Registry × Except String Unit × List Event :=
  match st timer_id with
  | none => (st, Except.error "Timer not found", [])
  | some t =>
    (st.insert timer_id
       { t with remaining_ms := t.duration_ms, target_at := none,
                running := false, completed := false,
                cancel_tx := false, runner := false },
     Except.ok (),
     [Event.tick timer_id t.duration_ms t.duration_ms false])

/-- Registry states reachable from the empty engine by the exported
operations and by iterations of the spawned tick loop. -/
inductive Reachable : Registry → Prop where
  | empty : Reachable Registry.empty
  | create (st : Registry) (id nm : String) (d : Int) (c : String) :
      Reachable st → Reachable (create_timer st id nm d c).1
  | delete (st : Registry) (id : String) :
      Reachable st → Reachable (delete_timer st id).1
  | start (st : Registry) (id : String) (now : Nat) :
      Reachable st → Reachable (start_timer st id now).1
  | pause (st : Registry) (id : String) (now : Nat) :
      Reachable st → Reachable (pause_timer st id now).1
  | resume (st : Registry) (id : String) (now : Nat) :
      Reachable st → Reachable (resume_timer st id now).1
  | reset (st : Registry) (id : String) :
      Reachable st → Reachable (reset_timer st id).1
  | tick (st : Registry) (id : String) (now : Nat) (fin : String) :
      Reachable st → Reachable (tickBody st id now fin).1

/-- Per-record state invariant that the code actually maintains: the cancel
sender is present exactly while running, a runner handle is present
whenever running, and a deadline is present exactly while running.  (A
stale runner handle may remain after natural completion.) -/
def RecordWF (t : TimerInstance) : Prop :=
  t.cancel_tx = t.running ∧ (t.running = true → t.runner = true) ∧
    t.target_at.isSome = t.running

/-- All records of a registry satisfy `RecordWF`. -/
def RegWF (st : Registry) : Prop :=
  ∀ id t, st id = some t → RecordWF t

/-- The spec's claimed exactly-one-of alternative for task attachment:
either no handle and no cancel sender, or running with both present. -/
def ClaimedTaskInv (t : TimerInstance) : Prop :=
  (t.runner = false ∧ t.cancel_tx = false) ∨
    (t.running = true ∧ t.cancel_tx = true ∧ t.runner = true)

/-- Registry holding one freshly created 5000 ms timer `"t"`. -/
def exSt : Registry := (create_timer Registry.empty "t" "w" 5000 "c").1

/-- The fresh 5000 ms record stored in `exSt`. -/
def exT : TimerInstance :=
  ⟨"t", "w", 5000, 5000, none, false, false, false, false, "c"⟩

/-- `exSt` after `start` at instant 0. -/
def exStarted : Registry := (start_timer exSt "t" 0).1

/-- The running record stored in `exStarted`: deadline at instant 5000. -/
def exStartedT : TimerInstance :=
  ⟨"t", "w", 5000, 5000, some 5000, true, true, true, false, "c"⟩

/-- A second timer `"u"` created next to `"t"`. -/
def exSt2 : Registry := (create_timer exSt "u" "v" 250 "c2").1

/-- The fresh record stored under `"u"` in `exSt2`. -/
def exU : TimerInstance :=
  ⟨"u", "v", 250, 250, none, false, false, false, false, "c2"⟩

/-- `exStarted` after the tick at instant 5000: the countdown has completed
naturally. -/
def exDone : Registry := (tickBody exStarted "t" 5000 "f").1

/-- The completed record stored in `exDone`: remaining 0, not running, a
stale runner handle still attached. -/
def exDoneT : TimerInstance :=
  ⟨"t", "w", 5000, 0, none, true, false, false, true, "c"⟩

/-- Registry holding one freshly created timer `"t"` whose duration is
`i64::MIN` milliseconds. -/
def exNegSt : Registry :=
  (create_timer Registry.empty "t" "w" (-(2 ^ 63)) "c").1

/-- `exNegSt` after `start` at instant 0: the `as u64` cast wraps the
negative remaining value to `2^64 - 2^63`, so the deadline lands at
instant `2^63`. -/
def exNegStarted : Registry := (start_timer exNegSt "t" 0).1

/-- The running record stored in `exNegStarted`. -/
def exNegStartedT : TimerInstance :=
  ⟨"t", "w", -(2 ^ 63), -(2 ^ 63), some (2 ^ 63), true, true, true, false, "c"⟩

/-- Registry holding one freshly created 0 ms timer `"t"`. -/
def exZeroSt : Registry := (create_timer Registry.empty "t" "w" 0 "c").1

/-- `exZeroSt` after `start` at instant 0: deadline at instant 0. -/
def exZeroStarted : Registry := (start_timer exZeroSt "t" 0).1

/-- The running record stored in `exZeroStarted`. -/
def exZeroStartedT : TimerInstance :=
  ⟨"t", "w", 0, 0, some 0, true, true, true, false, "c"⟩

/-- `exDone` after `resume` at instant 6000. -/
def exResumed : Registry := (resume_timer exDone "t" 6000).1

/-- The record stored in `exResumed`: the countdown restarted with deadline
6000 + 0, not 6000 + 5000. -/
def exResumedT : TimerInstance :=
  ⟨"t", "w", 5000, 0, some 6000, true, true, true, false, "c"⟩


theorem Registry.insert_self (st : Registry) (k : String) (v : TimerInstance) :
    st.insert k v k = some v := by
  simp [Registry.insert]

theorem Registry.insert_ne (st : Registry) (k k2 : String) (v : TimerInstance)
    (h : k2 ≠ k) : st.insert k v k2 = st k2 := by
  simp [Registry.insert, h]

theorem Registry.remove_self (st : Registry) (k : String) :
    st.remove k k = none := by
  simp [Registry.remove]

theorem Registry.remove_ne (st : Registry) (k k2 : String) (h : k2 ≠ k) :
    st.remove k k2 = st k2 := by
  simp [Registry.remove, h]

theorem create_timer_dup {st : Registry} {id : String} (nm : String) (d : Int)
    (c : String) (h : (st id).isSome = true) :
    create_timer st id nm d c =
      (st, Except.error "Timer with this ID already exists") := by
  unfold create_timer
  rw [if_pos h]

theorem create_timer_fresh {st : Registry} {id : String} (nm : String) (d : Int)
    (c : String) (h : st id = none) :
    create_timer st id nm d c =
      (st.insert id ⟨id, nm, d, d, none, false, false, false, false, c⟩,
       Except.ok ⟨id, nm, d, d, false, false, c⟩) := by
  unfold create_timer
  rw [h]
  rfl

theorem delete_timer_missing {st : Registry} {id : String} (h : st id = none) :
    delete_timer st id = (st, Except.error "Timer not found") := by
  unfold delete_timer
  rw [h]

theorem delete_timer_found {st : Registry} {id : String} {t : TimerInstance}
    (h : st id = some t) :
    delete_timer st id = (st.remove id, Except.ok ()) := by
  unfold delete_timer
  rw [h]

theorem start_timer_missing {st : Registry} {id : String} (now : Nat)
    (h : st id = none) :
    start_timer st id now = (st, Except.error "Timer not found", []) := by
  unfold start_timer
  rw [h]

theorem start_timer_found {st : Registry} {id : String} {t : TimerInstance}
    (now : Nat) (h : st id = some t) :
    start_timer st id now =
      (st.insert id
         { t with target_at := some (now + u64cast t.remaining_ms),
                  running := true, completed := false,
                  cancel_tx := true, runner := true },
       Except.ok (),
       [Event.tick id t.remaining_ms t.duration_ms true]) := by
  unfold start_timer
  rw [h]

theorem pause_timer_missing {st : Registry} {id : String} (now : Nat)
    (h : st id = none) :
    pause_timer st id now = (st, Except.error "Timer not found", []) := by
  unfold pause_timer
  rw [h]

theorem pause_timer_notRunning {st : Registry} {id : String} {t : TimerInstance}
    (now : Nat) (h : st id = some t) (hr : t.running = false) :
    pause_timer st id now = (st, Except.ok (), []) := by
  unfold pause_timer
  simp only [h]
  rw [if_pos hr]

theorem pause_timer_running {st : Registry} {id : String} {t : TimerInstance}
    (now : Nat) (h : st id = some t) (hr : t.running = true) :
    pause_timer st id now =
      (st.insert id
         { t with remaining_ms := pauseRemaining t now, target_at := none,
                  running := false, cancel_tx := false, runner := false },
       Except.ok (),
       [Event.tick id (pauseRemaining t now) t.duration_ms false]) := by
  unfold pause_timer
  simp only [h]
  rw [if_neg (by simp [hr])]

theorem resume_timer_missing {st : Registry} {id : String} (now : Nat)
    (h : st id = none) :
    resume_timer st id now = (st, Except.error "Timer not found", []) := by
  unfold resume_timer
  rw [h]

theorem resume_timer_running {st : Registry} {id : String} {t : TimerInstance}
    (now : Nat) (h : st id = some t) (hr : t.running = true) :
    resume_timer st id now = (st, Except.ok (), []) := by
  unfold resume_timer
  simp only [h]
  rw [if_pos hr]

theorem resume_timer_notRunning {st : Registry} {id : String} {t : TimerInstance}
    (now : Nat) (h : st id = some t) (hr : t.running = false) :
    resume_timer st id now = start_timer st id now := by
  unfold resume_timer
  simp only [h]
  rw [if_neg (by simp [hr])]

theorem reset_timer_missing {st : Registry} {id : String} (h : st id = none) :
    reset_timer st id = (st, Except.error "Timer not found", []) := by
  unfold reset_timer
  rw [h]

theorem reset_timer_found {st : Registry} {id : String} {t : TimerInstance}
    (h : st id = some t) :
    reset_timer st id =
      (st.insert id
         { t with remaining_ms := t.duration_ms, target_at := none,
                  running := false, completed := false,
                  cancel_tx := false, runner := false },
       Except.ok (),
       [Event.tick id t.duration_ms t.duration_ms false]) := by
  unfold reset_timer
  rw [h]

theorem tickBody_missing {st : Registry} {id : String} (now : Nat) (fin : String)
    (h : st id = none) : tickBody st id now fin = (st, [], true) := by
  unfold tickBody
  rw [h]

theorem tickBody_done {st : Registry} {id : String} {t : TimerInstance}
    {now : Nat} (fin : String) (h : st id = some t)
    (hneg : tickRemaining t now ≤ 0) :
    tickBody st id now fin =
      ((st.insert id { t with remaining_ms := max (tickRemaining t now) 0 }).insert id
         { t with remaining_ms := max (tickRemaining t now) 0, running := false,
                  completed := true, target_at := none, cancel_tx := false },
       [Event.tick id (max (tickRemaining t now) 0) t.duration_ms t.running,
        Event.done id fin], true) := by
  unfold tickBody
  simp only [h]
  rw [if_pos hneg, Registry.insert_self]

theorem tickBody_progress {st : Registry} {id : String} {t : TimerInstance}
    {now : Nat} (fin : String) (h : st id = some t)
    (hpos : ¬ tickRemaining t now ≤ 0) :
    tickBody st id now fin =
      (st.insert id { t with remaining_ms := max (tickRemaining t now) 0 },
       [Event.tick id (max (tickRemaining t now) 0) t.duration_ms t.running],
       false) := by
  unfold tickBody
  simp only [h]
  rw [if_neg hpos]

theorem runLoop_nil (st : Registry) (id : String) : runLoop st id [] = (st, []) :=
  rfl

theorem runLoop_cons (st : Registry) (id : String) (now : Nat) (fin : String)
    (rest : List (Nat × String)) :
    runLoop st id ((now, fin) :: rest) =
      if (tickBody st id now fin).2.2 then
        ((tickBody st id now fin).1, (tickBody st id now fin).2.1)
      else
        ((runLoop (tickBody st id now fin).1 id rest).1,
         (tickBody st id now fin).2.1 ++
           (runLoop (tickBody st id now fin).1 id rest).2) := by
  rfl

theorem runLoop_cons_break {st : Registry} {id : String} {now : Nat}
    {fin : String} (rest : List (Nat × String))
    (h : (tickBody st id now fin).2.2 = true) :
    runLoop st id ((now, fin) :: rest) =
      ((tickBody st id now fin).1, (tickBody st id now fin).2.1) := by
  rw [runLoop_cons, if_pos h]

theorem runLoop_cons_cont {st : Registry} {id : String} {now : Nat}
    {fin : String} (rest : List (Nat × String))
    (h : (tickBody st id now fin).2.2 = false) :
    runLoop st id ((now, fin) :: rest) =
      ((runLoop (tickBody st id now fin).1 id rest).1,
       (tickBody st id now fin).2.1 ++
         (runLoop (tickBody st id now fin).1 id rest).2) := by
  rw [runLoop_cons, if_neg (by simp [h])]
theorem u64cast_neg {r : Int} (h1 : -(2 ^ 64) ≤ r) (h2 : r < 0) :
    (u64cast r : Int) = 2 ^ 64 + r := by
  unfold u64cast
  omega

theorem tick_nonpos (r : Int) (s n : Nat) (hr : r ≤ 0) (hlo : -(2 ^ 63) ≤ r)
    (hs : s ≤ n) (hb : (n : Int) ≤ (s : Int) + 2 ^ 63 + r) :
    i64castOfNat (s + u64cast r - n) ≤ 0 := by
  unfold i64castOfNat u64cast
  split
  · omega
  · omega

theorem RegWF.insert (st : Registry) (k : String) (v : TimerInstance)
    (h : RegWF st) (hv : RecordWF v) : RegWF (st.insert k v) := by
  intro id t hid
  by_cases hk : id = k
  · subst hk
    rw [Registry.insert_self] at hid
    injection hid with hid
    exact hid ▸ hv
  · rw [Registry.insert_ne st k id v hk] at hid
    exact h id t hid

theorem RegWF.remove (st : Registry) (k : String) (h : RegWF st) :
    RegWF (st.remove k) := by
  intro id t hid
  by_cases hk : id = k
  · subst hk
    rw [Registry.remove_self] at hid
    cases hid
  · rw [Registry.remove_ne st k id hk] at hid
    exact h id t hid

theorem regWF_create (st : Registry) (id nm : String) (d : Int) (c : String)
    (h : RegWF st) : RegWF (create_timer st id nm d c).1 := by
  cases hst : st id with
  | none =>
    rw [create_timer_fresh nm d c hst]
    apply RegWF.insert st id _ h
    exact ⟨rfl, fun hx => Bool.noConfusion hx, rfl⟩
  | some t =>
    rw [create_timer_dup nm d c (by rw [hst]; rfl)]
    exact h

theorem regWF_delete (st : Registry) (id : String) (h : RegWF st) :
    RegWF (delete_timer st id).1 := by
  cases hst : st id with
  | none => rw [delete_timer_missing hst]; exact h
  | some t => rw [delete_timer_found hst]; exact RegWF.remove st id h

theorem regWF_start (st : Registry) (id : String) (now : Nat) (h : RegWF st) :
    RegWF (start_timer st id now).1 := by
  cases hst : st id with
  | none => rw [start_timer_missing now hst]; exact h
  | some t =>
    rw [start_timer_found now hst]
    apply RegWF.insert st id _ h
    exact ⟨rfl, fun _ => rfl, rfl⟩

theorem regWF_pause (st : Registry) (id : String) (now : Nat) (h : RegWF st) :
    RegWF (pause_timer st id now).1 := by
  cases hst : st id with
  | none => rw [pause_timer_missing now hst]; exact h
  | some t =>
    cases hr : t.running with
    | false => rw [pause_timer_notRunning now hst hr]; exact h
    | true =>
      rw [pause_timer_running now hst hr]
      apply RegWF.insert st id _ h
      exact ⟨rfl, fun hx => Bool.noConfusion hx, rfl⟩

theorem regWF_resume (st : Registry) (id : String) (now : Nat) (h : RegWF st) :
    RegWF (resume_timer st id now).1 := by
  cases hst : st id with
  | none => rw [resume_timer_missing now hst]; exact h
  | some t =>
    cases hr : t.running with
    | false =>
      rw [resume_timer_notRunning now hst hr]
      exact regWF_start st id now h
    | true => rw [resume_timer_running now hst hr]; exact h

theorem regWF_reset (st : Registry) (id : String) (h : RegWF st) :
    RegWF (reset_timer st id).1 := by
  cases hst : st id with
  | none => rw [reset_timer_missing hst]; exact h
  | some t =>
    rw [reset_timer_found hst]
    apply RegWF.insert st id _ h
    exact ⟨rfl, fun hx => Bool.noConfusion hx, rfl⟩

theorem regWF_tick (st : Registry) (id : String) (now : Nat) (fin : String)
    (h : RegWF st) : RegWF (tickBody st id now fin).1 := by
  cases hst : st id with
  | none => rw [tickBody_missing now fin hst]; exact h
  | some t =>
    have hwf := h id t hst
    have h1 : RegWF (st.insert id { t with remaining_ms := max (tickRemaining t now) 0 }) := by
      apply RegWF.insert st id _ h
      exact ⟨hwf.1, hwf.2.1, hwf.2.2⟩
    by_cases hneg : tickRemaining t now ≤ 0
    · rw [tickBody_done fin hst hneg]
      apply RegWF.insert _ id _ h1
      exact ⟨rfl, fun hx => Bool.noConfusion hx, rfl⟩
    · rw [tickBody_progress fin hst hneg]
      exact h1

theorem reachable_regWF (st : Registry) (h : Reachable st) : RegWF st := by
  induction h with
  | empty => intro id t hid; cases hid
  | create st id nm d c _ ih => exact regWF_create st id nm d c ih
  | delete st id _ ih => exact regWF_delete st id ih
  | start st id now _ ih => exact regWF_start st id now ih
  | pause st id now _ ih => exact regWF_pause st id now ih
  | resume st id now _ ih => exact regWF_resume st id now ih
  | reset st id _ ih => exact regWF_reset st id ih
  | tick st id now fin _ ih => exact regWF_tick st id now fin ih
/-- Claim C1, counterexample: the multi-timer code has no fallback to
`duration_ms`.  Resuming the completed timer of `exDone` (not running,
`remaining_ms = 0 ≤ 0`, `duration_ms = 5000`) at instant 6000 sets the
deadline to `6000 + remaining_ms = 6000`, not to
`6000 + duration_ms = 11000`. -/
theorem resume_fallback_counterexample :
    exDone "t" = some exDoneT ∧
    exDoneT.running = false ∧ exDoneT.remaining_ms ≤ 0 ∧
    exDoneT.duration_ms = 5000 ∧
    exResumed "t" = some exResumedT ∧
    exResumedT.target_at = some 6000 ∧
    exResumedT.target_at ≠ some (6000 + u64cast exDoneT.duration_ms) := by
  decide

/-- Claim C1, amended: `resume` on an existing, non-running timer always
delegates to `start`, which counts down the current `remaining_ms` (wrapped
through `as u64`); there is no fallback to the configured `duration_ms`
when `remaining_ms ≤ 0`. -/
theorem resume_uses_current_remaining (st : Registry) (id : String) (now : Nat)
    (t : TimerInstance) (hfind : st id = some t) (hnr : t.running = false) :
    resume_timer st id now = start_timer st id now ∧
    (resume_timer st id now).1 id =
      some { t with
             target_at := some (now + u64cast t.remaining_ms),
             running := true, completed := false,
             cancel_tx := true, runner := true } := by
  have he := resume_timer_notRunning now hfind hnr
  refine ⟨he, ?_⟩
  rw [he, start_timer_found now hfind]
  exact Registry.insert_self _ _ _

/-- Witness for `resume_uses_current_remaining` at the completed timer of
`exDone`. -/
theorem resume_uses_current_remaining_witness :
    resume_timer exDone "t" 6000 = start_timer exDone "t" 6000 ∧
    (resume_timer exDone "t" 6000).1 "t" =
      some { exDoneT with
             target_at := some (6000 + u64cast exDoneT.remaining_ms),
             running := true, completed := false,
             cancel_tx := true, runner := true } :=
  resume_uses_current_remaining exDone "t" 6000 exDoneT (by decide) (by decide)

/-- Claim C2, counterexample: a timer started with
`remaining_ms = -2^63 ≤ 0` does not complete on its first tick when that
tick happens 1 ms after start: the `as u64` / `as i64` wrapping makes the
computed remaining `2^63 - 1 > 0`, so the first tick emits a progress
payload, emits no completion, and the loop does not break. -/
theorem nonpositive_start_first_tick_counterexample :
    exNegStarted "t" = some exNegStartedT ∧
    exNegStartedT.remaining_ms ≤ 0 ∧
    (tickBody exNegStarted "t" 1 "f").2.2 = false ∧
    doneCount (runLoop exNegStarted "t" [(1, "f")]).2 = 0 ∧
    (runLoop exNegStarted "t" [(1, "f")]).2 =
      [Event.tick "t" (2 ^ 63 - 1) (-(2 ^ 63)) true] := by
  decide

/-- Claim C2, amended: a timer started while `remaining_ms ≤ 0` completes
on its first tick provided the elapsed time at that tick is at most
`2^63 + remaining_ms` milliseconds (true for every realistic clock unless
`remaining_ms` is within the first-tick delay of `i64::MIN`): the run
emits exactly one final progress notification (clamped to 0) followed by
exactly one completion notification, and the loop terminates. -/
theorem nonpositive_start_completes_first_tick (st : Registry) (id : String)
    (t : TimerInstance) (s n : Nat) (fin : String) (rest : List (Nat × String))
    (hfind : st id = some t) (hr : t.remaining_ms ≤ 0)
    (hlo : -(2 ^ 63) ≤ t.remaining_ms) (hs : s ≤ n)
    (hb : (n : Int) ≤ (s : Int) + 2 ^ 63 + t.remaining_ms) :
    (runLoop (start_timer st id s).1 id ((n, fin) :: rest)).2 =
      [Event.tick id 0 t.duration_ms true, Event.done id fin] ∧
    doneCount (runLoop (start_timer st id s).1 id ((n, fin) :: rest)).2 = 1 := by
  have h1 : (start_timer st id s).1 id =
      some { t with
             target_at := some (s + u64cast t.remaining_ms),
             running := true, completed := false,
             cancel_tx := true, runner := true } := by
    rw [start_timer_found s hfind]
    exact Registry.insert_self _ _ _
  have hneg : tickRemaining
      { t with
        target_at := some (s + u64cast t.remaining_ms),
        running := true, completed := false,
        cancel_tx := true, runner := true } n ≤ 0 := by
    show i64castOfNat (s + u64cast t.remaining_ms - n) ≤ 0
    exact tick_nonpos t.remaining_ms s n hr hlo hs hb
  have htick := tickBody_done fin h1 hneg
  have hbrk : (tickBody (start_timer st id s).1 id n fin).2.2 = true := by
    rw [htick]
  rw [runLoop_cons_break rest hbrk, htick]
  rw [max_eq_right hneg]
  exact ⟨rfl, rfl⟩

/-- Witness for `nonpositive_start_completes_first_tick`: the 0 ms timer of
`exZeroSt`, started at instant 0, completes at its first tick at instant 0. -/
theorem nonpositive_start_completes_first_tick_witness :
    (runLoop (start_timer exZeroSt "t" 0).1 "t" [(0, "f")]).2 =
      [Event.tick "t" 0 0 true, Event.done "t" "f"] ∧
    doneCount (runLoop (start_timer exZeroSt "t" 0).1 "t" [(0, "f")]).2 = 1 :=
  nonpositive_start_completes_first_tick exZeroSt "t"
    ⟨"t", "w", 0, 0, none, false, false, false, false, "c"⟩ 0 0 "f" []
    (by decide) (by decide) (by decide) (by decide) (by decide)

/-- Claim C3, counterexample: on the completing tick the code emits the
progress payload before the completion payload, contradicting "no progress
notification is emitted for that tick".  The tick at instant 0 on the
started 0 ms timer has computed remaining `≤ 0`, yet its event list
contains a `timer:tick` progress event. -/
theorem completion_tick_emits_progress_counterexample :
    exZeroStarted "t" = some exZeroStartedT ∧
    tickRemaining exZeroStartedT 0 ≤ 0 ∧
    (tickBody exZeroStarted "t" 0 "f").2.1 =
      [Event.tick "t" 0 0 true, Event.done "t" "f"] ∧
    Event.tick "t" 0 0 true ∈ (tickBody exZeroStarted "t" 0 "f").2.1 := by
  decide

/-- Claim C3, amended: on any tick where the record exists and the computed
remaining time is ≤ 0, the tick sets `running = false`, clears `target_at`,
sets `completed = true`, clears the cancel sender, emits the clamped
progress notification followed by a completion notification, and the loop
terminates. -/
theorem completion_tick_behavior (st : Registry) (id : String) (now : Nat)
    (fin : String) (t : TimerInstance) (hfind : st id = some t)
    (hneg : tickRemaining t now ≤ 0) :
    (tickBody st id now fin).2.2 = true ∧
    (tickBody st id now fin).2.1 =
      [Event.tick id (max (tickRemaining t now) 0) t.duration_ms t.running,
       Event.done id fin] ∧
    (tickBody st id now fin).1 id =
      some { t with
             remaining_ms := max (tickRemaining t now) 0,
             running := false, completed := true,
             target_at := none, cancel_tx := false } := by
  rw [tickBody_done fin hfind hneg]
  exact ⟨rfl, rfl, Registry.insert_self _ _ _⟩

/-- Witness for `completion_tick_behavior` at the tick of instant 5000 on
the running 5000 ms timer of `exStarted`. -/
theorem completion_tick_behavior_witness :
    (tickBody exStarted "t" 5000 "f").2.2 = true ∧
    (tickBody exStarted "t" 5000 "f").2.1 =
      [Event.tick "t" (max (tickRemaining exStartedT 5000) 0)
         exStartedT.duration_ms exStartedT.running,
       Event.done "t" "f"] ∧
    (tickBody exStarted "t" 5000 "f").1 "t" =
      some { exStartedT with
             remaining_ms := max (tickRemaining exStartedT 5000) 0,
             running := false, completed := true,
             target_at := none, cancel_tx := false } :=
  completion_tick_behavior exStarted "t" 5000 "f" exStartedT (by decide) (by decide)

/-- Claim C4, counterexample: after a countdown completes naturally the
completion branch clears `cancel_tx` but leaves the finished task's
`runner` handle attached, so the record of `exDone` (reachable by
create, start, one tick) has `running = false`, no cancel sender, and a
task handle still present — neither side of the claimed exactly-one-of
alternative holds. -/
theorem task_attachment_xor_counterexample :
    Reachable exDone ∧ exDone "t" = some exDoneT ∧ ¬ ClaimedTaskInv exDoneT := by
  refine ⟨?_, by decide, ?_⟩
  · exact Reachable.tick exStarted "t" 5000 "f"
      (Reachable.start exSt "t" 0
        (Reachable.create Registry.empty "t" "w" 5000 "c" Reachable.empty))
  · intro h
    rcases h with ⟨h1, h2⟩ | ⟨h1, h2, h3⟩
    · exact Bool.noConfusion h1
    · exact Bool.noConfusion h1

/-- Claim C4, amended: for every reachable record, the cancel sender is
present iff `running = true`, and whenever `running = true` a task handle
is present as well; a stale handle of an already-finished task may remain
attached after natural completion (with `running = false` and no cancel
sender), so presence of a handle alone does not imply a live task. -/
theorem task_attachment_invariant (st : Registry) (hreach : Reachable st)
    (id : String) (t : TimerInstance) (hfind : st id = some t) :
    t.cancel_tx = t.running ∧ (t.running = true → t.runner = true) :=
  ⟨(reachable_regWF st hreach id t hfind).1,
   (reachable_regWF st hreach id t hfind).2.1⟩

/-- Witness for `task_attachment_invariant` at the running record of
`exStarted`. -/
theorem task_attachment_invariant_witness :
    exStartedT.cancel_tx = exStartedT.running ∧
    (exStartedT.running = true → exStartedT.runner = true) :=
  task_attachment_invariant exStarted
    (Reachable.start exSt "t" 0
      (Reachable.create Registry.empty "t" "w" 5000 "c" Reachable.empty))
    "t" exStartedT (by decide)

/-- Claim C5: `delete` on an existing id succeeds, removes the record, and
afterwards the tick loop for that id emits no notification whatever tick
schedule follows: the very first tick after deletion finds no record,
emits nothing, and terminates the loop (the source additionally sends the
cancel signal and aborts the join handle of the removed record). -/
theorem delete_silences_timer (st : Registry) (timer_id : String)
    (t : TimerInstance) (hfind : st timer_id = some t) :
    (delete_timer st timer_id).2 = Except.ok () ∧
    (delete_timer st timer_id).1 timer_id = none ∧
    ∀ sched : List (Nat × String),
      (runLoop (delete_timer st timer_id).1 timer_id sched).2 = [] := by
  rw [delete_timer_found hfind]
  refine ⟨rfl, Registry.remove_self st timer_id, ?_⟩
  intro sched
  rcases sched with _ | ⟨⟨now, fin⟩, rest⟩
  · rfl
  · have hmiss := tickBody_missing now fin (Registry.remove_self st timer_id)
    have hbrk : (tickBody (st.remove timer_id) timer_id now fin).2.2 = true := by
      rw [hmiss]
    rw [runLoop_cons_break rest hbrk, hmiss]

/-- Witness for `delete_silences_timer` on the registry `exSt`. -/
theorem delete_silences_timer_witness :
    (delete_timer exSt "t").2 = Except.ok () ∧
    (delete_timer exSt "t").1 "t" = none ∧
    (runLoop (delete_timer exSt "t").1 "t" [(1000, "f"), (2000, "g")]).2 = [] := by
  have h := delete_silences_timer exSt "t" exT (by decide)
  exact ⟨h.1, h.2.1, h.2.2 [(1000, "f"), (2000, "g")]⟩

/-- Claim C6: for every reachable record, `target_at` is `Some` iff
`running = true`; every operation and every tick preserves this. -/
theorem target_iff_running (st : Registry) (hreach : Reachable st)
    (id : String) (t : TimerInstance) (hfind : st id = some t) :
    t.target_at.isSome = t.running :=
  (reachable_regWF st hreach id t hfind).2.2

/-- Witness for `target_iff_running` at the running record of `exStarted`. -/
theorem target_iff_running_witness :
    exStartedT.target_at.isSome = exStartedT.running :=
  target_iff_running exStarted
    (Reachable.start exSt "t" 0
      (Reachable.create Registry.empty "t" "w" 5000 "c" Reachable.empty))
    "t" exStartedT (by decide)

/-- Claim C7: every operation that fails (DuplicateId on `create`, NotFound
on `delete`/`start`/`pause`/`resume`/`reset`) returns the registry
unchanged — in particular a duplicate `create` leaves the original record
with all its field values. -/
theorem errors_leave_registry_unchanged (st : Registry) (id nm c : String)
    (d : Int) (now : Nat) (t : TimerInstance) :
    (st id = some t →
      (create_timer st id nm d c).1 = st ∧
      (create_timer st id nm d c).2 =
        Except.error "Timer with this ID already exists" ∧
      (create_timer st id nm d c).1 id = some t) ∧
    (st id = none →
      (delete_timer st id).1 = st ∧
      (delete_timer st id).2 = Except.error "Timer not found" ∧
      (start_timer st id now).1 = st ∧
      (start_timer st id now).2.1 = Except.error "Timer not found" ∧
      (pause_timer st id now).1 = st ∧
      (pause_timer st id now).2.1 = Except.error "Timer not found" ∧
      (resume_timer st id now).1 = st ∧
      (resume_timer st id now).2.1 = Except.error "Timer not found" ∧
      (reset_timer st id).1 = st ∧
      (reset_timer st id).2.1 = Except.error "Timer not found") := by
  constructor
  · intro h
    rw [create_timer_dup nm d c (by rw [h]; rfl)]
    exact ⟨rfl, rfl, h⟩
  · intro h
    rw [delete_timer_missing h, start_timer_missing now h,
        pause_timer_missing now h, resume_timer_missing now h,
        reset_timer_missing h]
    exact ⟨rfl, rfl, rfl, rfl, rfl, rfl, rfl, rfl, rfl, rfl⟩

/-- Witness for `errors_leave_registry_unchanged`: duplicate `create` of
`"t"` on `exSt`, and NotFound operations on the absent id `"x"`. -/
theorem errors_leave_registry_unchanged_witness :
    ((create_timer exSt "t" "b" 3 "c2").1 = exSt ∧
     (create_timer exSt "t" "b" 3 "c2").2 =
       Except.error "Timer with this ID already exists" ∧
     (create_timer exSt "t" "b" 3 "c2").1 "t" = some exT) ∧
    ((delete_timer exSt "x").1 = exSt ∧
     (delete_timer exSt "x").2 = Except.error "Timer not found" ∧
     (start_timer exSt "x" 0).1 = exSt ∧
     (start_timer exSt "x" 0).2.1 = Except.error "Timer not found" ∧
     (pause_timer exSt "x" 0).1 = exSt ∧
     (pause_timer exSt "x" 0).2.1 = Except.error "Timer not found" ∧
     (resume_timer exSt "x" 0).1 = exSt ∧
     (resume_timer exSt "x" 0).2.1 = Except.error "Timer not found" ∧
     (reset_timer exSt "x").1 = exSt ∧
     (reset_timer exSt "x").2.1 = Except.error "Timer not found") :=
  ⟨(errors_leave_registry_unchanged exSt "t" "b" "c2" 3 0 exT).1 (by decide),
   (errors_leave_registry_unchanged exSt "x" "b" "c2" 3 0 exT).2 (by decide)⟩

/-- Claim C8: `reset` on any existing timer succeeds, restores
`remaining_ms = duration_ms`, clears `target_at`, clears `running` and
`completed`, and emits the restored progress notification — whatever the
prior state (so after any sequence of `start`/`pause`). -/
theorem reset_restores_full_duration (st : Registry) (id : String)
    (t : TimerInstance) (hfind : st id = some t) :
    (reset_timer st id).2.1 = Except.ok () ∧
    (reset_timer st id).1 id =
      some { t with
             remaining_ms := t.duration_ms, target_at := none,
             running := false, completed := false,
             cancel_tx := false, runner := false } ∧
    (reset_timer st id).2.2 = [Event.tick id t.duration_ms t.duration_ms false] := by
  rw [reset_timer_found hfind]
  exact ⟨rfl, Registry.insert_self _ _ _, rfl⟩

/-- Witness for `reset_restores_full_duration` on the running timer of
`exStarted` (a state reached by `create` then `start`). -/
theorem reset_restores_full_duration_witness :
    (reset_timer exStarted "t").2.1 = Except.ok () ∧
    (reset_timer exStarted "t").1 "t" =
      some { exStartedT with
             remaining_ms := exStartedT.duration_ms, target_at := none,
             running := false, completed := false,
             cancel_tx := false, runner := false } ∧
    (reset_timer exStarted "t").2.2 =
      [Event.tick "t" exStartedT.duration_ms exStartedT.duration_ms false] :=
  reset_restores_full_duration exStarted "t" exStartedT (by decide)

/-- Claim C9: creating a timer with a fresh id and any duration `D ≥ 0`
succeeds, returns a snapshot with `remaining_ms = duration_ms = D`,
`running = false`, `completed = false`, and stores the matching idle
record. -/
theorem create_fresh_snapshot (st : Registry) (id nm c : String) (d : Int)
    (_hd : 0 ≤ d) (hfresh : st id = none) :
    (create_timer st id nm d c).2 = Except.ok ⟨id, nm, d, d, false, false, c⟩ ∧
    (create_timer st id nm d c).1 id =
      some ⟨id, nm, d, d, none, false, false, false, false, c⟩ := by
  rw [create_timer_fresh nm d c hfresh]
  exact ⟨rfl, Registry.insert_self _ _ _⟩

/-- Witness for `create_fresh_snapshot`: creating `"t"` with duration 5000
in the empty registry. -/
theorem create_fresh_snapshot_witness :
    (create_timer Registry.empty "t" "w" 5000 "c").2 =
      Except.ok ⟨"t", "w", 5000, 5000, false, false, "c"⟩ ∧
    (create_timer Registry.empty "t" "w" 5000 "c").1 "t" = some exT :=
  create_fresh_snapshot Registry.empty "t" "w" "c" 5000 (by decide) (by decide)

/-- Claim C10: each of `start`/`pause`/`resume`/`reset`/`delete` invoked on
id `x` leaves the record of any other present id `y` unchanged in all
fields. -/
theorem ops_frame_other_ids (st : Registry) (x y : String) (now : Nat)
    (tx ty : TimerInstance) (hxy : y ≠ x)
    (hx : st x = some tx) (hy : st y = some ty) :
    (start_timer st x now).1 y = some ty ∧
    (pause_timer st x now).1 y = some ty ∧
    (resume_timer st x now).1 y = some ty ∧
    (reset_timer st x).1 y = some ty ∧
    (delete_timer st x).1 y = some ty := by
  refine ⟨?_, ?_, ?_, ?_, ?_⟩
  · rw [start_timer_found now hx]
    exact (Registry.insert_ne st x y _ hxy).trans hy
  · cases hr : tx.running with
    | false => rw [pause_timer_notRunning now hx hr]; exact hy
    | true =>
      rw [pause_timer_running now hx hr]
      exact (Registry.insert_ne st x y _ hxy).trans hy
  · cases hr : tx.running with
    | false =>
      rw [resume_timer_notRunning now hx hr, start_timer_found now hx]
      exact (Registry.insert_ne st x y _ hxy).trans hy
    | true => rw [resume_timer_running now hx hr]; exact hy
  · rw [reset_timer_found hx]
    exact (Registry.insert_ne st x y _ hxy).trans hy
  · rw [delete_timer_found hx]
    exact (Registry.remove_ne st x y hxy).trans hy

/-- Witness for `ops_frame_other_ids`: operations on `"t"` in the
two-timer registry `exSt2` leave the record of `"u"` untouched. -/
theorem ops_frame_other_ids_witness :
    (start_timer exSt2 "t" 0).1 "u" = some exU ∧
    (pause_timer exSt2 "t" 0).1 "u" = some exU ∧
    (resume_timer exSt2 "t" 0).1 "u" = some exU ∧
    (reset_timer exSt2 "t").1 "u" = some exU ∧
    (delete_timer exSt2 "t").1 "u" = some exU :=
  ops_frame_other_ids exSt2 "t" "u" 0 exT exU (by decide) (by decide) (by decide)
end Focusnook
